import Mathlib

/-!
Verification of the MCP2515 SPI CAN controller driver (mcp2515.c).

This file gives a shallow embedding, in Lean, of the parts of the driver
needed to settle the specification claims: the frame-to-buffer mapping
(`mcp2515_set_txbuf`, the receive decode of `mcp2515_read_rxb_complete`),
the asynchronous SPI steps with their transfer lengths, the event state
machine over the `busy` / `transmit` / `interrupt` flags and the pending
skb slot, the bring-up mode computation of `mcp2515_chip_start`, and the
probe-time detection of `mcp2515_register_candev`.

Machine integers are modelled as `Nat` with explicit `% 256` where the C
code stores into a `u8` and the value may exceed a byte; error codes
returned by collaborators are modelled as `Int` (0 = success) or
`Option` where that is clearer.
-/

namespace Mcp2515

/-! ### SPI instruction set and register constants (from mcp2515.c) -/

def MCP2515_INSTRUCTION_WRITE : Nat := 0x02
def MCP2515_INSTRUCTION_READ : Nat := 0x03
def MCP2515_INSTRUCTION_BIT_MODIFY : Nat := 0x05
def MCP2515_INSTRUCTION_LOAD_TXB (n : Nat) : Nat := 0x40 + (n <<< 1)
def MCP2515_INSTRUCTION_RTS (n : Nat) : Nat := 0x80 + (1 <<< n)
def MCP2515_INSTRUCTION_READ_RXB (n : Nat) : Nat := 0x90 + (n <<< 2)
def MCP2515_INSTRUCTION_RESET : Nat := 0xc0

def CANSTAT : Nat := 0x0e
def CANCTRL : Nat := 0x0f
def TEC : Nat := 0x1c
def REC : Nat := 0x1d
def CANINTF : Nat := 0x2c
def EFLAG : Nat := 0x2d

def CANCTRL_REQOP_NORMAL : Nat := 0x00
def CANCTRL_REQOP_LOOPBACK : Nat := 0x40
def CANCTRL_REQOP_LISTEN_ONLY : Nat := 0x60
def CANCTRL_OSM : Nat := 0x08

def CANINTF_RX0IF : Nat := 0x01
def CANINTF_RX1IF : Nat := 0x02
def CANINTF_TX0IF : Nat := 0x04

def EFLG_RX0OVR : Nat := 0x40
def EFLG_RX1OVR : Nat := 0x80

def RXBSIDL_IDE : Nat := 0x08
def RXBSIDL_SRR : Nat := 0x10
def RXBDLC_RTR : Nat := 0x40

/-! ### CAN frame constants (from the Linux CAN headers used by the driver) -/

def CAN_EFF_FLAG : Nat := 0x80000000
def CAN_RTR_FLAG : Nat := 0x40000000

def CAN_CTRLMODE_LOOPBACK : Nat := 0x01
def CAN_CTRLMODE_LISTENONLY : Nat := 0x02
def CAN_CTRLMODE_3_SAMPLES : Nat := 0x04
def CAN_CTRLMODE_ONE_SHOT : Nat := 0x08

/-- A CAN frame as the driver sees it: `can_id` is the 32-bit identifier
word (including the EFF/RTR flag bits), `can_dlc` the u8 data length code,
`data` the 8 data bytes. -/
structure CanFrame where
  can_id : Nat
  can_dlc : Nat
  data : List Nat
deriving DecidableEq, Repr

/-! ### Frame-to-buffer mapping -/

/-- Embedding of `mcp2515_set_txbuf` (mcp2515.c lines 504-528): fills the
transmit buffer, starting at TXB0SIDH, for a frame.  Returns the list of
bytes written: 4 id bytes, the DLC byte, then `can_dlc` data bytes
(the C `memcpy(buf + 5, frame->data, frame->can_dlc)` runs
unconditionally). -/
def mcp2515_set_txbuf (f : CanFrame) : List Nat :=
  let eff := f.can_id &&& CAN_EFF_FLAG ≠ 0
  let b0 := if eff then (f.can_id >>> 21) % 256 else (f.can_id >>> 3) % 256
  let b1 := if eff then
      (((f.can_id >>> 13) &&& 0xe0) ||| 8 ||| ((f.can_id >>> 16) &&& 3)) % 256
    else (f.can_id <<< 5) % 256
  let b2 := if eff then (f.can_id >>> 8) % 256 else 0
  let b3 := if eff then f.can_id % 256 else 0
  let b4 := if f.can_id &&& CAN_RTR_FLAG ≠ 0 then f.can_dlc ||| 0x40 else f.can_dlc
  [b0, b1, b2, b3, b4] ++ f.data.take f.can_dlc

/-- The return value of `mcp2515_set_txbuf`: `return 5 + frame->can_dlc;`. -/
def mcp2515_set_txbuf_len (f : CanFrame) : Nat := 5 + f.can_dlc

/-- The identifier decode of `mcp2515_read_rxb_complete` (mcp2515.c lines
618-628), as a function of the payload bytes `buf[1]`..`buf[5]`. -/
def mcp2515_rxb_can_id (b1 b2 b3 b4 b5 : Nat) : Nat :=
  if b2 &&& RXBSIDL_IDE ≠ 0 then
    let base := (b1 <<< 21) ||| ((b2 &&& 0xe0) <<< 13) ||| ((b2 &&& 3) <<< 16) |||
      (b3 <<< 8) ||| b4 ||| CAN_EFF_FLAG
    if b5 &&& RXBDLC_RTR ≠ 0 then base ||| CAN_RTR_FLAG else base
  else
    let base := (b1 <<< 3) ||| (b2 >>> 5)
    if b2 &&& RXBSIDL_SRR ≠ 0 then base ||| CAN_RTR_FLAG else base

/-- Embedding of the frame decode in `mcp2515_read_rxb_complete`
(mcp2515.c lines 604-639).  `buf` is the 14-byte SPI receive buffer
(byte 0 echoes the instruction); `init` is the data array of the freshly
allocated frame, which the C `memcpy` overwrites only when the RTR flag
is clear, and then only in its first `can_dlc` bytes
(`get_can_dlc(x) = min x 8`). -/
def mcp2515_read_rxb_decode (buf init : List Nat) : CanFrame :=
  let cid := mcp2515_rxb_can_id (buf.getD 1 0) (buf.getD 2 0) (buf.getD 3 0)
    (buf.getD 4 0) (buf.getD 5 0)
  let cdlc := min (buf.getD 5 0 &&& 0xf) 8
  { can_id := cid
    can_dlc := cdlc
    data := if cid &&& CAN_RTR_FLAG ≠ 0 then init
      else (buf.drop 6).take cdlc ++ init.drop cdlc }

/-- A READ-RXB receive buffer whose bytes 1..13 hold the given payload
(remaining bytes zero, as the chip would return for unused data slots). -/
def rxbufOfPayload (p : List Nat) : List Nat :=
  0 :: (p ++ List.replicate (13 - p.length) 0)

/-! ### Asynchronous SPI steps

Each asynchronous step of the driver fills a prefix of the 14-byte shared
transmit buffer and sets `transfer.len`.  `tx` is the list of bytes the
step writes, `len` the value stored into `priv->transfer.len`. -/

structure SpiStep where
  tx : List Nat
  len : Nat
deriving DecidableEq, Repr

/-- Embedding of `mcp2515_read_flags` (mcp2515.c lines 410-423). -/
def mcp2515_read_flags_step : SpiStep :=
  { tx := [MCP2515_INSTRUCTION_READ, CANINTF, 0, 0], len := 4 }

/-- Embedding of `mcp2515_read_rxb` (mcp2515.c lines 429-441): the buffer
is zeroed over all 14 bytes, then byte 0 holds the instruction. -/
def mcp2515_read_rxb_step (instr : Nat) : SpiStep :=
  { tx := instr :: List.replicate 13 0, len := 14 }

/-- Embedding of `mcp2515_clear_canintf` (mcp2515.c lines 467-480).
`canintf` is the cached u8 `priv->canintf`; the C mask expression
`priv->canintf & ~(CANINTF_RX0IF | CANINTF_RX1IF)` is a u8 value, written
here with the complement taken inside a byte. -/
def mcp2515_clear_canintf_step (canintf : Nat) : SpiStep :=
  { tx := [MCP2515_INSTRUCTION_BIT_MODIFY, CANINTF,
      canintf &&& (0xff ^^^ (CANINTF_RX0IF ||| CANINTF_RX1IF)), 0]
    len := 4 }

/-- Embedding of `mcp2515_clear_eflg` (mcp2515.c lines 486-499). -/
def mcp2515_clear_eflg_step (eflg : Nat) : SpiStep :=
  { tx := [MCP2515_INSTRUCTION_BIT_MODIFY, EFLAG, eflg, 0], len := 4 }

/-- Embedding of `mcp2515_load_txb0` (mcp2515.c lines 534-546):
instruction byte followed by the `mcp2515_set_txbuf` payload;
`transfer.len = mcp2515_set_txbuf(buf + 1, skb) + 1`. -/
def mcp2515_load_txb0_step (f : CanFrame) : SpiStep :=
  { tx := MCP2515_INSTRUCTION_LOAD_TXB 0 :: mcp2515_set_txbuf f
    len := mcp2515_set_txbuf_len f + 1 }

/-- Embedding of `mcp2515_rts_txb0` (mcp2515.c lines 552-562). -/
def mcp2515_rts_txb0_step : SpiStep :=
  { tx := [MCP2515_INSTRUCTION_RTS 0], len := 1 }

/-! ### Event state machine

The flags, cached registers, the pending skb slot and the host transmit
queue state, as one record.  The SPI buffers themselves are covered by
the `SpiStep` definitions above. -/

structure MachState where
  busy : Bool
  interrupt : Bool
  transmit : Bool
  skb : Option CanFrame
  canintf : Nat
  eflg : Nat
  queueStopped : Bool
deriving DecidableEq, Repr

/-- The SPI transaction issued next by a completion callback. -/
inductive NextAction where
  | startReadRxb0
  | startReadRxb1
  | startClearCanintf
  | startLoadTxb0
  | startReadFlags
  | idle
deriving DecidableEq, Repr

/-- Embedding of `mcp2515_read_flags_complete` (mcp2515.c lines 567-599):
caches the two bytes read into `priv->canintf` / `priv->eflg`, then
dispatches on them; when `canintf` is zero, drains under the lock.
Returns the new state together with the action issued. -/
def mcp2515_read_flags_complete (s : MachState) (rx2 rx3 : Nat) :
    MachState × NextAction :=
  let t := { s with canintf := rx2, eflg := rx3 }
  if rx2 &&& CANINTF_RX0IF ≠ 0 then (t, .startReadRxb0)
  else if rx2 &&& CANINTF_RX1IF ≠ 0 then (t, .startReadRxb1)
  else if rx2 ≠ 0 then (t, .startClearCanintf)
  else if t.transmit then ({ t with transmit := false }, .startLoadTxb0)
  else if t.interrupt then ({ t with interrupt := false }, .startReadFlags)
  else ({ t with busy := false }, .idle)

/-- Embedding of `mcp2515_interrupt` (mcp2515.c lines 755-772): under the
lock, if busy record the interrupt, else become busy (and start
READ_FLAGS). -/
def mcp2515_interrupt (s : MachState) : MachState :=
  if s.busy then { s with interrupt := true } else { s with busy := true }

/-- Embedding of `mcp2515_start_xmit` (mcp2515.c lines 777-801) for a
valid (not dropped) frame: stop the host queue, store the skb, then
under the lock either record the pending transmit or become busy (and
start LOAD_TXB0). -/
def mcp2515_start_xmit (s : MachState) (f : CanFrame) : MachState :=
  let t := { s with queueStopped := true, skb := some f }
  if t.busy then { t with transmit := true } else { t with busy := true }

/-- Embedding of `mcp2515_transmit_or_read_flags` (mcp2515.c lines
644-658). -/
def mcp2515_transmit_or_read_flags (s : MachState) : MachState :=
  if s.transmit then { s with transmit := false } else s

/-- Embedding of `mcp2515_read_rxb0_complete` (mcp2515.c lines 663-674):
deliver the frame, then either read RXB1 or transmit-or-read-flags. -/
def mcp2515_read_rxb0_complete (s : MachState) : MachState :=
  if s.canintf &&& CANINTF_RX1IF ≠ 0 then s else mcp2515_transmit_or_read_flags s

/-- Embedding of `mcp2515_read_rxb1_complete` (mcp2515.c lines 679-686). -/
def mcp2515_read_rxb1_complete (s : MachState) : MachState :=
  mcp2515_transmit_or_read_flags s

/-- Embedding of `mcp2515_clear_canintf_complete` (mcp2515.c lines
691-710): when TX0IF was set, finalize the pending transmission (account
the echo skb, clear `priv->skb`, wake the host queue); then clear EFLG
or re-read flags. -/
def mcp2515_clear_canintf_complete (s : MachState) : MachState :=
  if s.canintf &&& CANINTF_TX0IF ≠ 0 then
    { s with skb := none, queueStopped := false }
  else s

/-- Embedding of `mcp2515_clear_eflg_complete` (mcp2515.c lines 715-730):
bumps the overflow counter and re-reads flags; no flag state changes. -/
def mcp2515_clear_eflg_complete (s : MachState) : MachState := s

/-- Embedding of `mcp2515_load_txb0_complete` (mcp2515.c lines 735-740). -/
def mcp2515_load_txb0_complete (s : MachState) : MachState := s

/-- Embedding of `mcp2515_rts_txb0_complete` (mcp2515.c lines 745-750). -/
def mcp2515_rts_txb0_complete (s : MachState) : MachState := s

/-- The stimuli that touch the shared state: the hardware interrupt, the
host transmit entry with an accepted frame, and the completion callback
of each SPI step.  `readFlagsDone` carries the two bytes the chip
returned for CANINTF and EFLG. -/
inductive Event where
  | irq
  | xmit (f : CanFrame)
  | readFlagsDone (rx2 rx3 : Nat)
  | readRxb0Done
  | readRxb1Done
  | clearCanintfDone
  | clearEflgDone
  | loadTxb0Done
  | rtsTxb0Done
deriving DecidableEq, Repr

/-- The state transformation performed by each event. -/
def stepFn (s : MachState) (e : Event) : MachState :=
  match e with
  | .irq => mcp2515_interrupt s
  | .xmit f => mcp2515_start_xmit s f
  | .readFlagsDone rx2 rx3 => (mcp2515_read_flags_complete s rx2 rx3).1
  | .readRxb0Done => mcp2515_read_rxb0_complete s
  | .readRxb1Done => mcp2515_read_rxb1_complete s
  | .clearCanintfDone => mcp2515_clear_canintf_complete s
  | .clearEflgDone => mcp2515_clear_eflg_complete s
  | .loadTxb0Done => mcp2515_load_txb0_complete s
  | .rtsTxb0Done => mcp2515_rts_txb0_complete s

/-- One step of the machine.  Any completion or hardware event may fire;
the only environment assumption is that the host submits frames only
while its transmit queue is running (the networking layer does not call
`ndo_start_xmit` on a stopped queue; the driver stops the queue at
accept and wakes it at TX finalize). -/
inductive Step : MachState → Event → MachState → Prop where
  | mk (s : MachState) (e : Event)
      (hq : ∀ f, e = .xmit f → s.queueStopped = false) :
      Step s e (stepFn s e)

/-- The state after open: idle machine, no pending skb, queue running. -/
def initState : MachState :=
  { busy := false, interrupt := false, transmit := false, skb := none,
    canintf := 0, eflg := 0, queueStopped := false }

/-- States reachable from the initial state by any interleaving of
events. -/
inductive Reachable : MachState → Prop where
  | init : Reachable initState
  | step {s : MachState} {e : Event} {s' : MachState} :
      Reachable s → Step s e s' → Reachable s'

/-- Invariant I6 of the spec: while `busy` is false, `transmit` and
`interrupt` are false. -/
def I6 (s : MachState) : Prop :=
  s.busy = false → s.transmit = false ∧ s.interrupt = false

/-- Queue invariant: while the host transmit queue is running, the
pending skb slot is empty. -/
def QInv (s : MachState) : Prop :=
  s.queueStopped = false → s.skb = none

/-! ### Synchronous bring-up and probe -/

/-- Embedding of the CANCTRL mode computation of `mcp2515_chip_start`
(mcp2515.c lines 336-349).  Note that the one-shot test reads `mode`,
which at that point already holds a CANCTRL register value, not the
ctrlmode bitset. -/
def mcp2515_chip_start_mode (ctrlmode : Nat) : Nat :=
  let mode :=
    if ctrlmode &&& CAN_CTRLMODE_LOOPBACK ≠ 0 then CANCTRL_REQOP_LOOPBACK
    else if ctrlmode &&& CAN_CTRLMODE_LISTENONLY ≠ 0 then CANCTRL_REQOP_LISTEN_ONLY
    else CANCTRL_REQOP_NORMAL
  if mode &&& CAN_CTRLMODE_ONE_SHOT ≠ 0 then mode ||| CANCTRL_OSM else mode

/-- Modelled from the spec (§4.2): the CANCTRL value the specification
prescribes — the register code of the requested mode with `OSM` OR-ed in
iff one-shot was requested in the CAN control-mode bitset. -/
def chip_start_mode_spec (ctrlmode : Nat) : Nat :=
  let mode :=
    if ctrlmode &&& CAN_CTRLMODE_LOOPBACK ≠ 0 then CANCTRL_REQOP_LOOPBACK
    else if ctrlmode &&& CAN_CTRLMODE_LISTENONLY ≠ 0 then CANCTRL_REQOP_LISTEN_ONLY
    else CANCTRL_REQOP_NORMAL
  if ctrlmode &&& CAN_CTRLMODE_ONE_SHOT ≠ 0 then mode ||| CANCTRL_OSM else mode

/-- Outcome of `mcp2515_register_candev`: detect failure (`-ENODEV`, no
netdev registered), successful registration, or a failure of the
framework `register_candev` call itself. -/
inductive ProbeResult where
  | noDevice
  | registered
  | registerFailed (e : Int)
deriving DecidableEq, Repr

/-- The error code a `ProbeResult` reports to the probe caller. -/
def probeErrCode : ProbeResult → Int
  | .noDevice => -19
  | .registered => 0
  | .registerFailed e => e

/-- Embedding of `mcp2515_register_candev` (mcp2515.c lines 951-995):
`err1`/`err2` are the return codes of the two synchronous register reads
(the C accumulates them with `err |= ...`), `stat`/`ctrl` the bytes read
back from CANSTAT and CANCTRL, and `registerErr` the outcome of the
framework `register_candev` call (`none` = success), which runs only
when detection passes. -/
def mcp2515_register_candev (err1 err2 : Int) (stat ctrl : Nat)
    (registerErr : Option Int) : ProbeResult :=
  if ¬((stat &&& 0xee = 0x80) ∧ (ctrl &&& 0x17 = 0x07)) ∨ Int.lor err1 err2 ≠ 0 then
    .noDevice
  else
    match registerErr with
    | some e => .registerFailed e
    | none => .registered

/-! ### Concrete frames and buffers used by witnesses and
counterexamples -/

def stdFrame : CanFrame :=
  { can_id := 0x123, can_dlc := 3, data := [0xAA, 0xBB, 0xCC, 0, 0, 0, 0, 0] }

def extFrame : CanFrame :=
  { can_id := 0x1ABCDEF0 ||| CAN_EFF_FLAG, can_dlc := 2,
    data := [0x11, 0x22, 0, 0, 0, 0, 0, 0] }

/-- A standard remote-request frame: id 0x123 with the RTR flag, dlc 1,
one data byte 0x7F. -/
def rtrFrame : CanFrame :=
  { can_id := 0x123 ||| CAN_RTR_FLAG, can_dlc := 1,
    data := [0x7F, 0, 0, 0, 0, 0, 0, 0] }

/-- A frame with an out-of-range data length code (can_dlc = 9). -/
def dlc9Frame : CanFrame :=
  { can_id := 0, can_dlc := 9, data := [1, 2, 3, 4, 5, 6, 7, 8] }

/-- A READ-RXB receive buffer for a standard frame with the SRR bit set
(so the decode marks the frame RTR): SIDH=0x24, SIDL=0x70 (IDE clear,
SRR set), DLC byte 2. -/
def rtrRxBuf : List Nat := [0, 0x24, 0x70, 0, 0, 2, 0x55, 0x66, 0, 0, 0, 0, 0, 0]

/-- An idle-but-busy machine state: the interrupt handler has started a
chain and nothing else is pending. -/
def busyIdleState : MachState := { initState with busy := true }

/-! ### Helper lemmas -/

theorem nat_lor_eq_zero_iff (m n : Nat) : m ||| n = 0 ↔ m = 0 ∧ n = 0 := by
  constructor
  · intro h
    constructor <;>
      (apply Nat.eq_of_testBit_eq
       intro i
       have hb := congrArg (fun x => Nat.testBit x i) h
       simp only [Nat.testBit_lor, Nat.zero_testBit, Bool.or_eq_false_iff] at hb
       simp [hb.1, hb.2, Nat.zero_testBit])
  · rintro ⟨rfl, rfl⟩
    rfl

theorem int_lor_eq_zero_iff (a b : Int) :
    Int.lor a b = 0 ↔ a = 0 ∧ b = 0 := by
  cases a with
  | ofNat m =>
    cases b with
    | ofNat n => simp [Int.lor, Int.ofNat_eq_zero, nat_lor_eq_zero_iff]
    | negSucc n => simp [Int.lor]
  | negSucc m =>
    cases b with
    | ofNat n => simp [Int.lor]
    | negSucc n => simp [Int.lor]

/-- For a data length code in range, OR-ing in the RTR bit does not
disturb the low 4 bits. -/
theorem dlc_or_rtr_land_eq (d : Nat) (h : d ≤ 8) : (d ||| 64) &&& 15 = d := by
  interval_cases d <;> decide

theorem dlc_land_eq (d : Nat) (h : d ≤ 8) : d &&& 15 = d := by
  interval_cases d <;> decide

theorem dlc_or_rtr_testBit6 (d : Nat) : (d ||| 64).testBit 6 = true := by
  rw [Nat.testBit_lor]
  have h64 : Nat.testBit 64 6 = true := by decide
  simp [h64]

theorem dlc_testBit6 (d : Nat) (h : d ≤ 8) : d.testBit 6 = false := by
  interval_cases d <;> decide

/-- The DLC byte written by `mcp2515_set_txbuf` is `frame->can_dlc`,
OR-ed with 0x40 when the RTR flag is set. -/
theorem set_txbuf_dlc_byte (f : CanFrame) :
    (mcp2515_set_txbuf f).getD 4 0 =
      if f.can_id &&& CAN_RTR_FLAG ≠ 0 then f.can_dlc ||| 0x40 else f.can_dlc := rfl

/-- The data field produced by the receive decode: untouched when the
decoded id carries the RTR flag, else the first `can_dlc` bytes are
copied from the buffer. -/
theorem read_rxb_decode_data (buf init : List Nat) :
    (mcp2515_read_rxb_decode buf init).data =
      if (mcp2515_read_rxb_decode buf init).can_id &&& CAN_RTR_FLAG ≠ 0 then init
      else (buf.drop 6).take (mcp2515_read_rxb_decode buf init).can_dlc ++
        init.drop (mcp2515_read_rxb_decode buf init).can_dlc := rfl

/-- Every event preserves invariant I6. -/
theorem step_preserves_I6 {s : MachState} {e : Event} {s' : MachState}
    (h : Step s e s') (hI : I6 s) : I6 s' := by
  rcases h with ⟨-⟩
  cases e <;>
    simp only [stepFn, mcp2515_interrupt, mcp2515_start_xmit,
      mcp2515_read_flags_complete, mcp2515_read_rxb0_complete,
      mcp2515_read_rxb1_complete, mcp2515_transmit_or_read_flags,
      mcp2515_clear_canintf_complete, mcp2515_clear_eflg_complete,
      mcp2515_load_txb0_complete, mcp2515_rts_txb0_complete] <;>
    (try split_ifs) <;> intro hb <;> simp_all [I6]

theorem reachable_I6 (s : MachState) (h : Reachable s) : I6 s := by
  induction h with
  | init => intro _; exact ⟨rfl, rfl⟩
  | step _ hst ih => exact step_preserves_I6 hst ih

/-- Every event preserves the queue invariant. -/
theorem step_preserves_QInv {s : MachState} {e : Event} {s' : MachState}
    (h : Step s e s') (hI : QInv s) : QInv s' := by
  rcases h with ⟨-⟩
  cases e <;>
    simp only [stepFn, mcp2515_interrupt, mcp2515_start_xmit,
      mcp2515_read_flags_complete, mcp2515_read_rxb0_complete,
      mcp2515_read_rxb1_complete, mcp2515_transmit_or_read_flags,
      mcp2515_clear_canintf_complete, mcp2515_clear_eflg_complete,
      mcp2515_load_txb0_complete, mcp2515_rts_txb0_complete] <;>
    (try split_ifs) <;> intro hb <;> simp_all [QInv]

theorem reachable_QInv (s : MachState) (h : Reachable s) : QInv s := by
  induction h with
  | init => intro _; rfl
  | step _ hst ih => exact step_preserves_QInv hst ih

/-- The pending-skb claim holds in full for any event that is neither a
transmit accept nor a CLEAR_CANINTF completion and leaves the skb slot
unchanged. -/
theorem skb_clauses_unchanged (s s' : MachState) (e : Event)
    (hskb : s'.skb = s.skb)
    (hx : ∀ f, e ≠ .xmit f) (hcl : e ≠ .clearCanintfDone) :
    (∀ f, e = .xmit f →
      s.skb = none ∧ s'.skb = some f ∧ s'.queueStopped = true) ∧
    (e = .clearCanintfDone → s.canintf &&& CANINTF_TX0IF ≠ 0 →
      s'.skb = none ∧ s'.queueStopped = false) ∧
    (s.skb = none → s'.skb ≠ none → ∃ f, e = .xmit f) ∧
    (s.skb ≠ none → s'.skb = none →
      e = .clearCanintfDone ∧ s.canintf &&& CANINTF_TX0IF ≠ 0) ∧
    (s'.skb ≠ s.skb →
      (∃ f, e = .xmit f) ∨ (e = .clearCanintfDone ∧ s.canintf &&& CANINTF_TX0IF ≠ 0)) :=
  ⟨fun f hf => absurd hf (hx f),
   fun hf => absurd hf hcl,
   fun h1 h2 => absurd (hskb.trans h1) h2,
   fun h1 h2 => absurd (hskb.symm.trans h2) h1,
   fun hne => absurd hskb hne⟩

/-! ### Claim theorems -/

/-- Claim C1: after a READ_FLAGS completion the machine branches exactly
as specified — RX0IF set issues READ_RXB0; else RX1IF issues READ_RXB1;
else a non-zero CANINTF issues CLEAR_CANINTF; only a zero CANINTF
drains, where a recorded transmit dispatches LOAD_TXB0, a recorded
interrupt re-issues READ_FLAGS, and `busy` is cleared exactly when
CANINTF is zero and both `transmit` and `interrupt` are clear. -/
theorem read_flags_complete_dispatch (s : MachState) (rx2 rx3 : Nat) :
    (rx2 &&& CANINTF_RX0IF ≠ 0 →
      (mcp2515_read_flags_complete s rx2 rx3).2 = .startReadRxb0) ∧
    (rx2 &&& CANINTF_RX0IF = 0 → rx2 &&& CANINTF_RX1IF ≠ 0 →
      (mcp2515_read_flags_complete s rx2 rx3).2 = .startReadRxb1) ∧
    (rx2 &&& CANINTF_RX0IF = 0 → rx2 &&& CANINTF_RX1IF = 0 → rx2 ≠ 0 →
      (mcp2515_read_flags_complete s rx2 rx3).2 = .startClearCanintf) ∧
    (rx2 = 0 → s.transmit = true →
      (mcp2515_read_flags_complete s rx2 rx3).2 = .startLoadTxb0) ∧
    (rx2 = 0 → s.transmit = false → s.interrupt = true →
      (mcp2515_read_flags_complete s rx2 rx3).2 = .startReadFlags) ∧
    (s.busy = true → rx2 = 0 → s.transmit = false → s.interrupt = false →
      (mcp2515_read_flags_complete s rx2 rx3).1.busy = false) ∧
    ((mcp2515_read_flags_complete s rx2 rx3).1.busy = false → s.busy = true →
      rx2 = 0 ∧ s.transmit = false ∧ s.interrupt = false) := by
  refine ⟨fun ha => ?_, fun ha hb => ?_, fun ha hb hc => ?_, fun ha hb => ?_,
    fun ha hb hc => ?_, fun ha hb hc hd => ?_, fun ha hb => ?_⟩
  · simp [mcp2515_read_flags_complete, ha]
  · simp [mcp2515_read_flags_complete, ha, hb]
  · simp [mcp2515_read_flags_complete, ha, hb, hc]
  · subst ha
    simp [mcp2515_read_flags_complete, hb]
  · subst ha
    simp [mcp2515_read_flags_complete, hb, hc]
  · subst hb
    simp [mcp2515_read_flags_complete, hc, hd]
  · by_cases h1 : rx2 &&& CANINTF_RX0IF ≠ 0
    · simp [mcp2515_read_flags_complete, h1, hb] at ha
    · by_cases h2 : rx2 &&& CANINTF_RX1IF ≠ 0
      · simp [mcp2515_read_flags_complete, h1, h2, hb] at ha
      · by_cases h3 : rx2 ≠ 0
        · simp [mcp2515_read_flags_complete, h1, h2, h3, hb] at ha
        · push_neg at h3
          subst h3
          by_cases h4 : s.transmit = true
          · simp [mcp2515_read_flags_complete, h4, hb] at ha
          · by_cases h5 : s.interrupt = true
            · simp [mcp2515_read_flags_complete, h4, h5, hb] at ha
            · exact ⟨rfl, by simpa using h4, by simpa using h5⟩

/-- Claim C1 witness: from a busy state with nothing pending, a zero
CANINTF read clears `busy`. -/
theorem read_flags_complete_dispatch_witness :
    (mcp2515_read_flags_complete busyIdleState 0 0).1.busy = false :=
  (read_flags_complete_dispatch busyIdleState 0 0).2.2.2.2.2.1 rfl rfl rfl rfl

/-- Claim C2: invariant I6 holds in every reachable state — whenever
`busy` is false, `transmit` and `interrupt` are false; every operation
(interrupt handler, host transmit entry, and all SPI completion
callbacks) preserves it. -/
theorem busy_false_implies_flags_false (s : MachState) (h : Reachable s)
    (hb : s.busy = false) : s.transmit = false ∧ s.interrupt = false :=
  reachable_I6 s h hb

/-- Claim C2 witness: the invariant instantiated at the initial state. -/
theorem busy_false_implies_flags_false_witness :
    initState.transmit = false ∧ initState.interrupt = false :=
  busy_false_implies_flags_false initState Reachable.init rfl

/-- Claim C3: in every reachable state, the pending skb slot moves from
`none` to `some` exactly at a host transmit accept (which also stops the
queue), and from `some` to `none` exactly at a CLEAR_CANINTF completion
with TX0IF set in `last_canintf` (which also wakes the queue); no other
event changes it. -/
theorem pending_skb_transitions (s : MachState) (e : Event) (s' : MachState)
    (hr : Reachable s) (hs : Step s e s') :
    (∀ f, e = .xmit f →
      s.skb = none ∧ s'.skb = some f ∧ s'.queueStopped = true) ∧
    (e = .clearCanintfDone → s.canintf &&& CANINTF_TX0IF ≠ 0 →
      s'.skb = none ∧ s'.queueStopped = false) ∧
    (s.skb = none → s'.skb ≠ none → ∃ f, e = .xmit f) ∧
    (s.skb ≠ none → s'.skb = none →
      e = .clearCanintfDone ∧ s.canintf &&& CANINTF_TX0IF ≠ 0) ∧
    (s'.skb ≠ s.skb →
      (∃ f, e = .xmit f) ∨
        (e = .clearCanintfDone ∧ s.canintf &&& CANINTF_TX0IF ≠ 0)) := by
  have hQ : QInv s := reachable_QInv s hr
  cases hs with
  | mk hq =>
    cases e with
    | irq =>
      have hskb : (stepFn s .irq).skb = s.skb := by
        simp only [stepFn, mcp2515_interrupt]
        split_ifs <;> rfl
      exact skb_clauses_unchanged s (stepFn s .irq) .irq hskb
        (fun f h => Event.noConfusion h) (fun h => Event.noConfusion h)
    | xmit f =>
      have hqs : s.queueStopped = false := hq f rfl
      have hnone : s.skb = none := hQ hqs
      have hsk : (stepFn s (.xmit f)).skb = some f := by
        simp only [stepFn, mcp2515_start_xmit]
        split_ifs <;> rfl
      have hqt : (stepFn s (.xmit f)).queueStopped = true := by
        simp only [stepFn, mcp2515_start_xmit]
        split_ifs <;> rfl
      refine ⟨?_, ?_, ?_, ?_, ?_⟩
      · intro f' hf'
        injection hf' with hff
        subst hff
        exact ⟨hnone, hsk, hqt⟩
      · intro hf
        exact Event.noConfusion hf
      · intro _ _
        exact ⟨f, rfl⟩
      · intro hne _
        exact absurd hnone hne
      · intro _
        exact Or.inl ⟨f, rfl⟩
    | readFlagsDone rx2 rx3 =>
      have hskb : (stepFn s (.readFlagsDone rx2 rx3)).skb = s.skb := by
        simp only [stepFn, mcp2515_read_flags_complete]
        split_ifs <;> rfl
      exact skb_clauses_unchanged s (stepFn s (.readFlagsDone rx2 rx3))
        (.readFlagsDone rx2 rx3) hskb
        (fun f h => Event.noConfusion h) (fun h => Event.noConfusion h)
    | readRxb0Done =>
      have hskb : (stepFn s .readRxb0Done).skb = s.skb := by
        simp only [stepFn, mcp2515_read_rxb0_complete,
          mcp2515_transmit_or_read_flags]
        split_ifs <;> rfl
      exact skb_clauses_unchanged s (stepFn s .readRxb0Done) .readRxb0Done hskb
        (fun f h => Event.noConfusion h) (fun h => Event.noConfusion h)
    | readRxb1Done =>
      have hskb : (stepFn s .readRxb1Done).skb = s.skb := by
        simp only [stepFn, mcp2515_read_rxb1_complete,
          mcp2515_transmit_or_read_flags]
        split_ifs <;> rfl
      exact skb_clauses_unchanged s (stepFn s .readRxb1Done) .readRxb1Done hskb
        (fun f h => Event.noConfusion h) (fun h => Event.noConfusion h)
    | clearCanintfDone =>
      by_cases hTX : s.canintf &&& CANINTF_TX0IF ≠ 0
      · have hs' : stepFn s .clearCanintfDone =
            { s with skb := none, queueStopped := false } := by
          simp only [stepFn, mcp2515_clear_canintf_complete, if_pos hTX]
        refine ⟨?_, ?_, ?_, ?_, ?_⟩
        · intro f hf
          exact Event.noConfusion hf
        · intro _ _
          exact ⟨by rw [hs'], by rw [hs']⟩
        · intro _ h2
          exact absurd (by rw [hs']) h2
        · intro _ _
          exact ⟨rfl, hTX⟩
        · intro _
          exact Or.inr ⟨rfl, hTX⟩
      · have hskb : (stepFn s .clearCanintfDone).skb = s.skb := by
          simp only [stepFn, mcp2515_clear_canintf_complete, if_neg hTX]
        refine ⟨?_, ?_, ?_, ?_, ?_⟩
        · intro f hf
          exact Event.noConfusion hf
        · intro _ hTX'
          exact absurd hTX' hTX
        · intro h1 h2
          exact absurd (hskb.trans h1) h2
        · intro h1 h2
          exact absurd (hskb.symm.trans h2) h1
        · intro hne
          exact absurd hskb hne
    | clearEflgDone =>
      exact skb_clauses_unchanged s (stepFn s .clearEflgDone) .clearEflgDone rfl
        (fun f h => Event.noConfusion h) (fun h => Event.noConfusion h)
    | loadTxb0Done =>
      exact skb_clauses_unchanged s (stepFn s .loadTxb0Done) .loadTxb0Done rfl
        (fun f h => Event.noConfusion h) (fun h => Event.noConfusion h)
    | rtsTxb0Done =>
      exact skb_clauses_unchanged s (stepFn s .rtsTxb0Done) .rtsTxb0Done rfl
        (fun f h => Event.noConfusion h) (fun h => Event.noConfusion h)

/-- Claim C3 witness: accepting the standard frame from the initial
state fills the empty slot and stops the queue. -/
theorem pending_skb_transitions_witness :
    initState.skb = none ∧
    (stepFn initState (.xmit stdFrame)).skb = some stdFrame ∧
    (stepFn initState (.xmit stdFrame)).queueStopped = true :=
  (pending_skb_transitions initState (.xmit stdFrame)
    (stepFn initState (.xmit stdFrame)) Reachable.init
    (Step.mk initState (.xmit stdFrame) (fun _ _ => rfl))).1 stdFrame rfl

/-- Claim C4, counterexample: encoding the RTR frame `rtrFrame`
(RTR flag set, dlc 1) with `mcp2515_set_txbuf` does NOT end the payload
after the DLC byte: the payload is 6 bytes long and byte 5 is the copied
data byte 0x7F, so data bytes are copied even though RTR is set. -/
theorem set_txbuf_copies_data_for_rtr :
    (mcp2515_set_txbuf rtrFrame).length = 6 ∧
    (mcp2515_set_txbuf rtrFrame).getD 5 0 = 0x7F ∧
    mcp2515_set_txbuf_len rtrFrame ≠ 5 := by
  decide

/-- Claim C4, amended: decoding a READ-RXB payload whose decoded id has
the RTR flag leaves the frame's data untouched; encoding with
`mcp2515_set_txbuf` copies `can_dlc` data bytes after the DLC byte for
every frame, RTR or not, and reports payload length `5 + can_dlc`. -/
theorem rtr_data_handling :
    (∀ buf init : List Nat,
      (mcp2515_read_rxb_decode buf init).can_id &&& CAN_RTR_FLAG ≠ 0 →
      (mcp2515_read_rxb_decode buf init).data = init) ∧
    (∀ f : CanFrame, (mcp2515_set_txbuf f).drop 5 = f.data.take f.can_dlc ∧
      mcp2515_set_txbuf_len f = 5 + f.can_dlc) := by
  constructor
  · intro buf init h
    rw [read_rxb_decode_data, if_pos h]
  · intro f
    exact ⟨rfl, rfl⟩

/-- Claim C4 witness: a concrete RTR receive buffer decodes with the
frame data left exactly as allocated. -/
theorem rtr_data_handling_witness :
    (mcp2515_read_rxb_decode rtrRxBuf [9, 8, 7, 6, 5, 4, 3, 2]).data =
      [9, 8, 7, 6, 5, 4, 3, 2] :=
  rtr_data_handling.1 rtrRxBuf [9, 8, 7, 6, 5, 4, 3, 2] (by decide)

/-- Claim C5: the code never sets OSM.  At the failing input
`ctrlmode = CAN_CTRLMODE_ONE_SHOT` the code writes CANCTRL = 0x00 while
the spec prescribes 0x08, because the code tests
`mode & CAN_CTRLMODE_ONE_SHOT` on a CANCTRL register value instead of
the ctrlmode bitset; indeed for every ctrlmode the OSM bit of the
written value is clear. -/
theorem chip_start_mode_osm_never_set :
    mcp2515_chip_start_mode CAN_CTRLMODE_ONE_SHOT = CANCTRL_REQOP_NORMAL ∧
    chip_start_mode_spec CAN_CTRLMODE_ONE_SHOT =
      (CANCTRL_REQOP_NORMAL ||| CANCTRL_OSM) ∧
    ∀ m : Nat, mcp2515_chip_start_mode m &&& CANCTRL_OSM = 0 := by
  refine ⟨by decide, by decide, ?_⟩
  intro m
  unfold mcp2515_chip_start_mode
  split_ifs <;> decide

/-- Claim C6, counterexample: for `can_dlc = 9` the TX-encode path writes
DLC-byte low 4 bits equal to 9, not the clamped length `min 9 8 = 8`. -/
theorem set_txbuf_dlc_not_clamped :
    ((mcp2515_set_txbuf dlc9Frame).getD 4 0) &&& 0xf ≠ min dlc9Frame.can_dlc 8 := by
  decide

/-- Claim C6, amended: for every frame whose `can_dlc` is at most 8 (the
only values a validated frame can carry), the TX-encode DLC byte has low
4 bits equal to `can_dlc` (which then equals the clamped length) and bit
6 set iff the RTR flag is set; on the receive side the decode clamps:
`can_dlc = min (DLC & 0xf) 8`.  The TX-encode path itself does not clamp,
so the equality with the clamped length fails for `can_dlc > 8`. -/
theorem dlc_byte_mapping :
    (∀ f : CanFrame, f.can_dlc ≤ 8 →
      ((mcp2515_set_txbuf f).getD 4 0) &&& 0xf = f.can_dlc ∧
      ((((mcp2515_set_txbuf f).getD 4 0).testBit 6 = true) ↔
        f.can_id &&& CAN_RTR_FLAG ≠ 0)) ∧
    (∀ buf init : List Nat,
      (mcp2515_read_rxb_decode buf init).can_dlc = min (buf.getD 5 0 &&& 0xf) 8) := by
  constructor
  · intro f h
    rw [set_txbuf_dlc_byte]
    by_cases hr : f.can_id &&& CAN_RTR_FLAG ≠ 0
    · rw [if_pos hr]
      exact ⟨dlc_or_rtr_land_eq _ h, fun _ => hr, fun _ => dlc_or_rtr_testBit6 _⟩
    · rw [if_neg hr]
      refine ⟨dlc_land_eq _ h, fun hb => ?_, fun hc => absurd hc hr⟩
      rw [dlc_testBit6 _ h] at hb
      exact absurd hb (by decide)
  · intro buf init
    rfl

/-- Claim C6 witness: the standard example frame (dlc 3, no RTR) has DLC
byte with low 4 bits 3. -/
theorem dlc_byte_mapping_witness :
    ((mcp2515_set_txbuf stdFrame).getD 4 0) &&& 0xf = stdFrame.can_dlc :=
  (dlc_byte_mapping.1 stdFrame (by decide)).1

/-- Claim C7: encode/decode round-trip.  Encoding the standard frame
(id=0x123, dlc=3, data=[0xAA,0xBB,0xCC]) with `mcp2515_set_txbuf` and
decoding a READ-RXB buffer whose bytes 1..13 equal that payload yields the
same frame; likewise for the extended frame (id=0x1ABCDEF0 | EFF, dlc=2,
data=[0x11,0x22]). -/
theorem mcp2515_roundtrip_std_and_ext :
    mcp2515_read_rxb_decode (rxbufOfPayload (mcp2515_set_txbuf stdFrame))
      (List.replicate 8 0) = stdFrame ∧
    mcp2515_read_rxb_decode (rxbufOfPayload (mcp2515_set_txbuf extFrame))
      (List.replicate 8 0) = extFrame := by
  constructor <;> decide

/-- Claim C8: probe-time detection.  The framework registration call is
reached iff `(CANSTAT & 0xEE) == 0x80` and `(CANCTRL & 0x17) == 0x07`
and both reads succeeded; otherwise the probe fails with `-ENODEV` and
no network device is registered. -/
theorem register_candev_detect (err1 err2 : Int) (stat ctrl : Nat)
    (rr : Option Int) :
    ((mcp2515_register_candev err1 err2 stat ctrl rr ≠ .noDevice) ↔
      (stat &&& 0xee = 0x80 ∧ ctrl &&& 0x17 = 0x07 ∧ err1 = 0 ∧ err2 = 0)) ∧
    (mcp2515_register_candev err1 err2 stat ctrl rr = .noDevice →
      probeErrCode (mcp2515_register_candev err1 err2 stat ctrl rr) = -19) ∧
    ((stat &&& 0xee = 0x80 ∧ ctrl &&& 0x17 = 0x07 ∧ err1 = 0 ∧ err2 = 0) →
      mcp2515_register_candev err1 err2 stat ctrl rr =
        (match rr with
         | some e => ProbeResult.registerFailed e
         | none => ProbeResult.registered)) := by
  refine ⟨?_, ?_, ?_⟩
  · unfold mcp2515_register_candev
    split_ifs with h
    · constructor
      · intro hcon
        exact absurd rfl hcon
      · rintro ⟨hA, hB, h1, h2⟩
        subst h1
        subst h2
        rcases h with h | h
        · exact absurd ⟨hA, hB⟩ h
        · exact absurd (by decide) h
    · push_neg at h
      obtain ⟨⟨hA, hB⟩, hz⟩ := h
      have hz' := (int_lor_eq_zero_iff err1 err2).mp hz
      constructor
      · intro _
        exact ⟨hA, hB, hz'.1, hz'.2⟩
      · intro _
        cases rr <;> simp
  · intro hnd
    rw [hnd]
    rfl
  · rintro ⟨hA, hB, h1, h2⟩
    unfold mcp2515_register_candev
    have hcond : ¬(¬((stat &&& 0xee = 0x80) ∧ (ctrl &&& 0x17 = 0x07)) ∨
        Int.lor err1 err2 ≠ 0) := by
      subst h1
      subst h2
      push_neg
      exact ⟨⟨hA, hB⟩, by decide⟩
    rw [if_neg hcond]

/-- Claim C8 witness: power-on default bytes (CANSTAT=0x80, CANCTRL=0x07)
with successful reads let registration proceed and succeed. -/
theorem register_candev_detect_witness :
    mcp2515_register_candev 0 0 0x80 0x07 none = ProbeResult.registered :=
  (register_candev_detect 0 0 0x80 0x07 none).2.2
    ⟨by decide, by decide, rfl, rfl⟩

/-- Claim C9: the CLEAR_CANINTF step is a BIT-MODIFY on CANINTF whose
mask keeps exactly the bits of `last_canintf` other than RX0IF and RX1IF
and whose data byte is 0; the CLEAR_EFLG step is a BIT-MODIFY on EFLG
with mask `last_eflg` and data 0.  Both use transfer length 4. -/
theorem clear_steps_bit_modify (c e : Nat) (hc : c < 256) :
    (mcp2515_clear_canintf_step c).len = 4 ∧
    (mcp2515_clear_canintf_step c).tx.getD 0 0 = MCP2515_INSTRUCTION_BIT_MODIFY ∧
    (mcp2515_clear_canintf_step c).tx.getD 1 0 = CANINTF ∧
    (∀ i : Nat, ((mcp2515_clear_canintf_step c).tx.getD 2 0).testBit i =
      (c.testBit i && !(decide (i = 0)) && !(decide (i = 1)))) ∧
    (mcp2515_clear_canintf_step c).tx.getD 3 0 = 0 ∧
    (mcp2515_clear_eflg_step e).len = 4 ∧
    (mcp2515_clear_eflg_step e).tx.getD 0 0 = MCP2515_INSTRUCTION_BIT_MODIFY ∧
    (mcp2515_clear_eflg_step e).tx.getD 1 0 = EFLAG ∧
    (mcp2515_clear_eflg_step e).tx.getD 2 0 = e ∧
    (mcp2515_clear_eflg_step e).tx.getD 3 0 = 0 := by
  refine ⟨rfl, rfl, rfl, ?_, rfl, rfl, rfl, rfl, rfl, rfl⟩
  intro i
  show (c &&& 0xfc).testBit i = _
  rw [Nat.testBit_land]
  rcases Nat.lt_or_ge i 8 with hi | hi
  · have h252 : Nat.testBit 252 i = (!(decide (i = 0)) && !(decide (i = 1))) := by
      interval_cases i <;> decide
    rw [h252]
    exact (Bool.and_assoc _ _ _).symm
  · have hci : c.testBit i = false := by
      apply Nat.testBit_lt_two_pow
      calc c < 256 := hc
        _ ≤ 2 ^ i := by
          calc (256 : Nat) = 2 ^ 8 := by norm_num
            _ ≤ 2 ^ i := Nat.pow_le_pow_right (by norm_num) hi
    simp [hci]

/-- Claim C9 witness: concrete instance at `last_canintf = 0xaf`,
checking the mask bit for ERRIF (bit 5). -/
theorem clear_steps_bit_modify_witness :
    ((mcp2515_clear_canintf_step 0xaf).tx.getD 2 0).testBit 5 =
      (Nat.testBit 0xaf 5 && !(decide ((5 : Nat) = 0)) && !(decide ((5 : Nat) = 1))) :=
  (clear_steps_bit_modify 0xaf 0x40 (by decide)).2.2.2.1 5

/-- Claim C10: every asynchronous SPI step fits the 14-byte shared
buffers: READ_FLAGS and the two BIT-MODIFY steps use transfer length 4,
READ-RXB uses 14, RTS uses 1, and LOAD-TXB0 uses `1 + (5 + can_dlc)`,
which is at most 14 when `can_dlc ≤ 8`; the bytes written by each step
also never exceed 14. -/
theorem spi_steps_fit_buffers (f : CanFrame) (c e instr : Nat)
    (hdlc : f.can_dlc ≤ 8) (hdata : f.data.length = 8) :
    mcp2515_read_flags_step.len = 4 ∧
    (mcp2515_clear_canintf_step c).len = 4 ∧
    (mcp2515_clear_eflg_step e).len = 4 ∧
    (mcp2515_read_rxb_step instr).len = 14 ∧
    mcp2515_rts_txb0_step.len = 1 ∧
    (mcp2515_load_txb0_step f).len = 1 + (5 + f.can_dlc) ∧
    (mcp2515_load_txb0_step f).len ≤ 14 ∧
    (mcp2515_load_txb0_step f).tx.length ≤ 14 ∧
    mcp2515_read_flags_step.tx.length ≤ 14 ∧
    (mcp2515_read_rxb_step instr).tx.length ≤ 14 ∧
    (mcp2515_clear_canintf_step c).tx.length ≤ 14 ∧
    (mcp2515_clear_eflg_step e).tx.length ≤ 14 ∧
    mcp2515_rts_txb0_step.tx.length ≤ 14 := by
  refine ⟨rfl, rfl, rfl, rfl, rfl, ?_, ?_, ?_, by decide,
    by norm_num [mcp2515_read_rxb_step], by norm_num [mcp2515_clear_canintf_step],
    by norm_num [mcp2515_clear_eflg_step], by decide⟩
  · simp only [mcp2515_load_txb0_step, mcp2515_set_txbuf_len]
    omega
  · simp only [mcp2515_load_txb0_step, mcp2515_set_txbuf_len]
    omega
  · simp [mcp2515_load_txb0_step, mcp2515_set_txbuf, hdata]

/-- Claim C10 witness: concrete instance at the standard example frame. -/
theorem spi_steps_fit_buffers_witness :
    (mcp2515_load_txb0_step stdFrame).len = 1 + (5 + stdFrame.can_dlc) ∧
    (mcp2515_load_txb0_step stdFrame).len ≤ 14 :=
  ⟨(spi_steps_fit_buffers stdFrame 0 0 0x90 (by decide) (by decide)).2.2.2.2.2.1,
   (spi_steps_fit_buffers stdFrame 0 0 0x90 (by decide) (by decide)).2.2.2.2.2.2.1⟩

end Mcp2515
